import Mathlib

/-!
Verification of the http_codex library (src/http_code.rs): a strongly
typed representation of HTTP status codes with bidirectional conversion
between numeric codes and named variants, plus classification into
status-code families.

The embedding is shallow: the Rust enums become Lean inductives, the
`From` impls become Lean functions.  Rust `u32` is modelled as `Nat`
(with the bound `< 2^32` stated explicitly where it matters), signed
integers as `Int`, and the `as u32` numeric casts as `% 2^32` on `Nat`
or `Int.emod` on `Int`.
-/

set_option maxHeartbeats 1600000

/-- The HTTP codes, from `pub enum HttpCode` in src/http_code.rs.
`None` models the absence of a code, `Unknown v` carries a numeric code
the library does not know. -/
inductive HttpCode where
  | Continue
  | SwitchingProtocols
  | Processing
  | EarlyHints
  | Ok
  | Created
  | Accepted
  | NonAuthoritativeInformation
  | NoContent
  | ResetContent
  | PartialContent
  | MultiStatus
  | AlreadyReported
  | ImUsed
  | MultipleChoices
  | MovedPermanently
  | Found
  | SeeOther
  | NotModified
  | TemporaryRedirect
  | PermanentRedirect
  | BadRequest
  | Unauthorized
  | PaymentRequired
  | Forbidden
  | NotFound
  | MethodNotAllowed
  | NotAcceptable
  | ProxyAuthentificationRequired
  | RequestTimeout
  | Conflict
  | Gone
  | LengthRequired
  | PreconditionFailed
  | PayloadTooLarge
  | UriTooLong
  | UnsupportedMediaType
  | RangeNotSatisfiable
  | ExpectationFailed
  | ImATeapot
  | MisdirectedRequest
  | UnprocessableContent
  | Locked
  | FailedDependency
  | TooEarly
  | UpgradeRequired
  | PreconditionRequired
  | TooManyRequests
  | RequestHeaderFieldsTooLarge
  | UnavailableForLegalReasons
  | InternalServerError
  | NotImplemented
  | BadGateway
  | ServiceUnavailable
  | GatewayTimeout
  | HttpVersionNotSupported
  | VariantAlsoNegotiates
  | InsufficientStorage
  | LoopDetected
  | NotExtended
  | NetworkAuthetificationRequired
  | None
  | Unknown (v : Nat)

/-- The HTTP code classes, from `pub enum HttpCodeClass` in
src/http_code.rs. -/
inductive HttpCodeClass where
  | Informational
  | Successful
  | Redirection
  | ClientError
  | ServerError
  | None
  | Unknown

/-- `impl From<u32> for HttpCode` (src/http_code.rs lines 444-511): the
integer-to-code lookup table, with a catch-all arm producing
`Unknown v`. -/
def HttpCode.fromU32 (value : Nat) : HttpCode :=
  match value with
  | 100 => HttpCode.Continue
  | 101 => HttpCode.SwitchingProtocols
  | 102 => HttpCode.Processing
  | 103 => HttpCode.EarlyHints
  | 200 => HttpCode.Ok
  | 201 => HttpCode.Created
  | 202 => HttpCode.Accepted
  | 203 => HttpCode.NonAuthoritativeInformation
  | 204 => HttpCode.NoContent
  | 205 => HttpCode.ResetContent
  | 206 => HttpCode.PartialContent
  | 207 => HttpCode.MultiStatus
  | 208 => HttpCode.AlreadyReported
  | 226 => HttpCode.ImUsed
  | 300 => HttpCode.MultipleChoices
  | 301 => HttpCode.MovedPermanently
  | 302 => HttpCode.Found
  | 303 => HttpCode.SeeOther
  | 304 => HttpCode.NotModified
  | 307 => HttpCode.TemporaryRedirect
  | 308 => HttpCode.PermanentRedirect
  | 400 => HttpCode.BadRequest
  | 401 => HttpCode.Unauthorized
  | 402 => HttpCode.PaymentRequired
  | 403 => HttpCode.Forbidden
  | 404 => HttpCode.NotFound
  | 405 => HttpCode.MethodNotAllowed
  | 406 => HttpCode.NotAcceptable
  | 407 => HttpCode.ProxyAuthentificationRequired
  | 408 => HttpCode.RequestTimeout
  | 409 => HttpCode.Conflict
  | 410 => HttpCode.Gone
  | 411 => HttpCode.LengthRequired
  | 412 => HttpCode.PreconditionFailed
  | 413 => HttpCode.PayloadTooLarge
  | 414 => HttpCode.UriTooLong
  | 415 => HttpCode.UnsupportedMediaType
  | 416 => HttpCode.RangeNotSatisfiable
  | 417 => HttpCode.ExpectationFailed
  | 418 => HttpCode.ImATeapot
  | 421 => HttpCode.MisdirectedRequest
  | 422 => HttpCode.UnprocessableContent
  | 423 => HttpCode.Locked
  | 424 => HttpCode.FailedDependency
  | 425 => HttpCode.TooEarly
  | 426 => HttpCode.UpgradeRequired
  | 428 => HttpCode.PreconditionRequired
  | 429 => HttpCode.TooManyRequests
  | 431 => HttpCode.RequestHeaderFieldsTooLarge
  | 451 => HttpCode.UnavailableForLegalReasons
  | 500 => HttpCode.InternalServerError
  | 501 => HttpCode.NotImplemented
  | 502 => HttpCode.BadGateway
  | 503 => HttpCode.ServiceUnavailable
  | 504 => HttpCode.GatewayTimeout
  | 505 => HttpCode.HttpVersionNotSupported
  | 506 => HttpCode.VariantAlsoNegotiates
  | 507 => HttpCode.InsufficientStorage
  | 508 => HttpCode.LoopDetected
  | 510 => HttpCode.NotExtended
  | 511 => HttpCode.NetworkAuthetificationRequired
  | v => HttpCode.Unknown v

/-- `impl From<HttpCode> for u32` (src/http_code.rs lines 663-731): the
code-to-integer table; `Unknown v` returns `v`, `None` returns `0`. -/
def HttpCode.toU32 (value : HttpCode) : Nat :=
  match value with
  | HttpCode.Continue => 100
  | HttpCode.SwitchingProtocols => 101
  | HttpCode.Processing => 102
  | HttpCode.EarlyHints => 103
  | HttpCode.Ok => 200
  | HttpCode.Created => 201
  | HttpCode.Accepted => 202
  | HttpCode.NonAuthoritativeInformation => 203
  | HttpCode.NoContent => 204
  | HttpCode.ResetContent => 205
  | HttpCode.PartialContent => 206
  | HttpCode.MultiStatus => 207
  | HttpCode.AlreadyReported => 208
  | HttpCode.ImUsed => 226
  | HttpCode.MultipleChoices => 300
  | HttpCode.MovedPermanently => 301
  | HttpCode.Found => 302
  | HttpCode.SeeOther => 303
  | HttpCode.NotModified => 304
  | HttpCode.TemporaryRedirect => 307
  | HttpCode.PermanentRedirect => 308
  | HttpCode.BadRequest => 400
  | HttpCode.Unauthorized => 401
  | HttpCode.PaymentRequired => 402
  | HttpCode.Forbidden => 403
  | HttpCode.NotFound => 404
  | HttpCode.MethodNotAllowed => 405
  | HttpCode.NotAcceptable => 406
  | HttpCode.ProxyAuthentificationRequired => 407
  | HttpCode.RequestTimeout => 408
  | HttpCode.Conflict => 409
  | HttpCode.Gone => 410
  | HttpCode.LengthRequired => 411
  | HttpCode.PreconditionFailed => 412
  | HttpCode.PayloadTooLarge => 413
  | HttpCode.UriTooLong => 414
  | HttpCode.UnsupportedMediaType => 415
  | HttpCode.RangeNotSatisfiable => 416
  | HttpCode.ExpectationFailed => 417
  | HttpCode.ImATeapot => 418
  | HttpCode.MisdirectedRequest => 421
  | HttpCode.UnprocessableContent => 422
  | HttpCode.Locked => 423
  | HttpCode.FailedDependency => 424
  | HttpCode.TooEarly => 425
  | HttpCode.UpgradeRequired => 426
  | HttpCode.PreconditionRequired => 428
  | HttpCode.TooManyRequests => 429
  | HttpCode.RequestHeaderFieldsTooLarge => 431
  | HttpCode.UnavailableForLegalReasons => 451
  | HttpCode.InternalServerError => 500
  | HttpCode.NotImplemented => 501
  | HttpCode.BadGateway => 502
  | HttpCode.ServiceUnavailable => 503
  | HttpCode.GatewayTimeout => 504
  | HttpCode.HttpVersionNotSupported => 505
  | HttpCode.VariantAlsoNegotiates => 506
  | HttpCode.InsufficientStorage => 507
  | HttpCode.LoopDetected => 508
  | HttpCode.NotExtended => 510
  | HttpCode.NetworkAuthetificationRequired => 511
  | HttpCode.Unknown v => v
  | HttpCode.None => 0

/-- `impl Default for HttpCode` (src/http_code.rs lines 513-517):
the default value is `None`. -/
instance : Inhabited HttpCode := ⟨HttpCode.None⟩

/-- `impl From<u64> for HttpCode` (src/http_code.rs lines 525-529):
`(value as u32).into()`; the `as u32` cast truncates to 32 bits.  The
`u128` and `usize` impls (lines 519-523, 537-541) are the same
function on the larger input ranges. -/
def HttpCode.fromU64 (value : Nat) : HttpCode :=
  HttpCode.fromU32 (value % 2 ^ 32)

/-- `impl From<u16> for HttpCode` (src/http_code.rs lines 531-535):
`(value as u32).into()`; a u16 always fits in a u32 so the cast is the
identity on the value. -/
def HttpCode.fromU16 (value : Nat) : HttpCode :=
  HttpCode.fromU32 value

/-- The signed impls `From<i128>`, `From<i64>`, `From<i32>`,
`From<i16>`, `From<isize>` (src/http_code.rs lines 543-571): each is
`(value as u32).into()`, where the Rust numeric cast takes the value
modulo `2^32` (twos-complement truncation).  `Int.emod` returns the
nonnegative representative, matching the unsigned result of the cast. -/
def HttpCode.fromInt (value : Int) : HttpCode :=
  HttpCode.fromU32 (value % (2 ^ 32 : Int)).toNat

/-- `impl From<Option<u32>> for HttpCode` (src/http_code.rs lines
591-598): `None` yields `HttpCode.None`, `Some v` delegates to the u32
conversion.  The other `Option` impls (lines 573-661) delegate the same
way to their width. -/
def HttpCode.fromOptU32 (value : Option Nat) : HttpCode :=
  match value with
  | Option.none => HttpCode.None
  | Option.some v => HttpCode.fromU32 v

/-- `impl From<HttpCode> for Option<u32>` (src/http_code.rs lines
733-740): `HttpCode.None` maps to `none`, everything else to
`some` of the u32 conversion. -/
def HttpCode.toOptU32 (value : HttpCode) : Option Nat :=
  match value with
  | HttpCode.None => Option.none
  | v => Option.some v.toU32

/-- `impl From<HttpCode> for HttpCodeClass` (src/http_code.rs lines
742-815): each known variant maps to its family; `None` to `None`,
`Unknown _` to `Unknown`. -/
def HttpCodeClass.fromCode (value : HttpCode) : HttpCodeClass :=
  match value with
  | HttpCode.Continue
  | HttpCode.SwitchingProtocols
  | HttpCode.Processing
  | HttpCode.EarlyHints => HttpCodeClass.Informational
  | HttpCode.Ok
  | HttpCode.Created
  | HttpCode.Accepted
  | HttpCode.NonAuthoritativeInformation
  | HttpCode.NoContent
  | HttpCode.ResetContent
  | HttpCode.PartialContent
  | HttpCode.MultiStatus
  | HttpCode.AlreadyReported
  | HttpCode.ImUsed => HttpCodeClass.Successful
  | HttpCode.MultipleChoices
  | HttpCode.MovedPermanently
  | HttpCode.Found
  | HttpCode.SeeOther
  | HttpCode.NotModified
  | HttpCode.TemporaryRedirect
  | HttpCode.PermanentRedirect => HttpCodeClass.Redirection
  | HttpCode.BadRequest
  | HttpCode.Unauthorized
  | HttpCode.PaymentRequired
  | HttpCode.Forbidden
  | HttpCode.NotFound
  | HttpCode.MethodNotAllowed
  | HttpCode.NotAcceptable
  | HttpCode.ProxyAuthentificationRequired
  | HttpCode.RequestTimeout
  | HttpCode.Conflict
  | HttpCode.Gone
  | HttpCode.LengthRequired
  | HttpCode.PreconditionFailed
  | HttpCode.PayloadTooLarge
  | HttpCode.UriTooLong
  | HttpCode.UnsupportedMediaType
  | HttpCode.RangeNotSatisfiable
  | HttpCode.ExpectationFailed
  | HttpCode.ImATeapot
  | HttpCode.MisdirectedRequest
  | HttpCode.UnprocessableContent
  | HttpCode.Locked
  | HttpCode.FailedDependency
  | HttpCode.TooEarly
  | HttpCode.UpgradeRequired
  | HttpCode.PreconditionRequired
  | HttpCode.TooManyRequests
  | HttpCode.RequestHeaderFieldsTooLarge
  | HttpCode.UnavailableForLegalReasons => HttpCodeClass.ClientError
  | HttpCode.InternalServerError
  | HttpCode.NotImplemented
  | HttpCode.BadGateway
  | HttpCode.ServiceUnavailable
  | HttpCode.GatewayTimeout
  | HttpCode.HttpVersionNotSupported
  | HttpCode.VariantAlsoNegotiates
  | HttpCode.InsufficientStorage
  | HttpCode.LoopDetected
  | HttpCode.NotExtended
  | HttpCode.NetworkAuthetificationRequired => HttpCodeClass.ServerError
  | HttpCode.None => HttpCodeClass.None
  | HttpCode.Unknown _ => HttpCodeClass.Unknown

/-- The integer values covered by the known arms of the
`From<u32> for HttpCode` table, in source order. -/
def knownCodes : List Nat :=
  [100, 101, 102, 103,
   200, 201, 202, 203, 204, 205, 206, 207, 208, 226,
   300, 301, 302, 303, 304, 307, 308,
   400, 401, 402, 403, 404, 405, 406, 407, 408, 409, 410, 411, 412,
   413, 414, 415, 416, 417, 418, 421, 422, 423, 424, 425, 426, 428,
   429, 431, 451,
   500, 501, 502, 503, 504, 505, 506, 507, 508, 510, 511]

/-- A code is known when it is neither `None` nor `Unknown _`. -/
def HttpCode.isKnown (value : HttpCode) : Bool :=
  match value with
  | HttpCode.None => false
  | HttpCode.Unknown _ => false
  | _ => true

/-- The class a known code's hundreds digit prescribes (the spec's
table 1xx Informational through 5xx ServerError). -/
def classOfHundreds (h : Nat) : HttpCodeClass :=
  match h with
  | 1 => HttpCodeClass.Informational
  | 2 => HttpCodeClass.Successful
  | 3 => HttpCodeClass.Redirection
  | 4 => HttpCodeClass.ClientError
  | 5 => HttpCodeClass.ServerError
  | _ => HttpCodeClass.Unknown

/-- Converting any integer to a code and back returns the integer: the
known arms of the two tables agree, and the catch-all arm stores the
value in `Unknown`. -/
lemma toU32_fromU32_eq (v : Nat) : (HttpCode.fromU32 v).toU32 = v := by
  unfold HttpCode.fromU32
  split <;> rfl

/-- An integer outside the known table falls through to the catch-all
arm of the lookup. -/
lemma fromU32_not_known (v : Nat) (hv : v ∉ knownCodes) :
    HttpCode.fromU32 v = HttpCode.Unknown v := by
  unfold HttpCode.fromU32
  split <;> first
    | rfl
    | (exact absurd (by decide) hv)

/-- Every value in the known table is below 600. -/
lemma ge600_not_known (v : Nat) (hv : 600 ≤ v) : v ∉ knownCodes := by
  intro hmem
  simp only [knownCodes, List.mem_cons, List.not_mem_nil, or_false] at hmem
  omega

/-- The integer-to-code lookup never produces the absence sentinel. -/
lemma fromU32_ne_none (v : Nat) : HttpCode.fromU32 v ≠ HttpCode.None := by
  unfold HttpCode.fromU32
  split <;> nofun

/-- Every value in the known table converts to a known (non-None,
non-Unknown) variant. -/
lemma known_values_isKnown : ∀ v ∈ knownCodes, (HttpCode.fromU32 v).isKnown = true := by
  decide

/-- A known variant is never an `Unknown`. -/
lemma isKnown_ne_unknown (c : HttpCode) (hc : c.isKnown = true) (w : Nat) :
    c ≠ HttpCode.Unknown w := by
  cases c <;> first
    | (exact fun h => HttpCode.noConfusion h)
    | (exact Bool.noConfusion hc)

/-- On any code other than the absence sentinel, the optional
conversion wraps the plain integer conversion in `some`. -/
lemma toOptU32_some_of_ne (c : HttpCode) (h : c ≠ HttpCode.None) :
    HttpCode.toOptU32 c = Option.some c.toU32 := by
  unfold HttpCode.toOptU32
  split
  · exact absurd rfl h
  · rfl

/-- C1: for every value in the known table, converting to a code and
back yields the value; for every known (non-None, non-Unknown) code,
converting to an integer and back yields the same code: the known-code
mapping is a bijection. -/
theorem known_code_bijection :
    (∀ v ∈ knownCodes, (HttpCode.fromU32 v).toU32 = v) ∧
    (∀ c : HttpCode, c.isKnown = true → HttpCode.fromU32 c.toU32 = c) := by
  constructor
  · decide
  · intro c hc
    cases c <;> first
      | rfl
      | (exact Bool.noConfusion hc)

/-- C1 witness: the round trip at the known value 404 and at the known
variant NotFound. -/
theorem known_code_bijection_witness :
    HttpCode.fromU32 (HttpCode.toU32 HttpCode.NotFound) = HttpCode.NotFound :=
  known_code_bijection.2 HttpCode.NotFound rfl

/-- C2: every u32 value outside the known table converts to
`Unknown` of itself, and `Unknown v` converts back to `v` for every
u32 value `v`. -/
theorem unknown_preservation :
    (∀ v : Nat, v < 2 ^ 32 → v ∉ knownCodes →
        HttpCode.fromU32 v = HttpCode.Unknown v) ∧
    (∀ v : Nat, v < 2 ^ 32 → (HttpCode.Unknown v).toU32 = v) := by
  constructor
  · intro v _ hv
    exact fromU32_not_known v hv
  · intro v _
    rfl

/-- C2 witness: the unknown values 999 and 12345. -/
theorem unknown_preservation_witness :
    HttpCode.fromU32 999 = HttpCode.Unknown 999 ∧
    (HttpCode.Unknown 12345).toU32 = 12345 :=
  ⟨unknown_preservation.1 999 (by decide) (by decide),
   unknown_preservation.2 12345 (by decide)⟩

/-- C3: every known code classifies as the class of its canonical
integer's hundreds digit; `Unknown v` classifies as `Unknown` for every
value `v`; `None` classifies as `None`. -/
theorem classification_consistency :
    (∀ c : HttpCode, c.isKnown = true →
        HttpCodeClass.fromCode c = classOfHundreds (c.toU32 / 100)) ∧
    (∀ v : Nat, HttpCodeClass.fromCode (HttpCode.Unknown v) = HttpCodeClass.Unknown) ∧
    HttpCodeClass.fromCode HttpCode.None = HttpCodeClass.None := by
  refine ⟨?_, fun v => rfl, rfl⟩
  intro c hc
  cases c <;> first
    | rfl
    | (exact Bool.noConfusion hc)

/-- C3 witness: NotFound (404) classifies as its hundreds digit
prescribes. -/
theorem classification_consistency_witness :
    HttpCodeClass.fromCode HttpCode.NotFound
      = classOfHundreds (HttpCode.toU32 HttpCode.NotFound / 100) :=
  classification_consistency.1 HttpCode.NotFound rfl

/-- C4 counterexample: the u64 value 2^32 + 404 is at least 600, yet
its conversion is NotFound, not `Unknown` of its 32-bit truncation, so
the claim that every u64 value at least 600 converts to `Unknown` of
its truncation is false. -/
theorem u64_ge600_counterexample :
    600 ≤ 4294967700 ∧
    HttpCode.fromU64 4294967700 = HttpCode.NotFound ∧
    HttpCode.fromU64 4294967700 ≠ HttpCode.Unknown (4294967700 % 2 ^ 32) :=
  ⟨by decide, rfl, fun h => HttpCode.noConfusion h⟩

/-- C4 amended: conversion from wider integers truncates to 32 bits
first and is total; a value whose truncation is outside the known
table converts to `Unknown` of the truncation; in particular a u64
value in [600, 2^32) converts to `Unknown` of itself. -/
theorem wide_conversion_truncates :
    (∀ v : Nat, HttpCode.fromU64 v = HttpCode.fromU32 (v % 2 ^ 32)) ∧
    (∀ v : Nat, v % 2 ^ 32 ∉ knownCodes →
        HttpCode.fromU64 v = HttpCode.Unknown (v % 2 ^ 32)) ∧
    (∀ v : Nat, 600 ≤ v → v < 2 ^ 32 →
        HttpCode.fromU64 v = HttpCode.Unknown v) := by
  refine ⟨fun v => rfl, fun v hv => fromU32_not_known _ hv, ?_⟩
  intro v h6 h32
  have hmod : v % 2 ^ 32 = v := Nat.mod_eq_of_lt h32
  unfold HttpCode.fromU64
  rw [hmod]
  exact fromU32_not_known v (ge600_not_known v h6)

/-- C4 witness: the u64 values 999 and 2^32 + 404. -/
theorem wide_conversion_truncates_witness :
    HttpCode.fromU64 999 = HttpCode.Unknown 999 ∧
    HttpCode.fromU64 4294967700 = HttpCode.fromU32 (4294967700 % 2 ^ 32) :=
  ⟨wide_conversion_truncates.2.2 999 (by decide) (by decide),
   wide_conversion_truncates.1 4294967700⟩

/-- C5: converting absent input yields `None`, converting `None` back
yields absence, and for every u32 value (known or unknown) the optional
round trip through `some` returns the value. -/
theorem absence_roundtrip :
    HttpCode.fromOptU32 Option.none = HttpCode.None ∧
    HttpCode.toOptU32 HttpCode.None = Option.none ∧
    (∀ v : Nat, v < 2 ^ 32 →
        HttpCode.toOptU32 (HttpCode.fromOptU32 (Option.some v)) = Option.some v) := by
  refine ⟨rfl, rfl, ?_⟩
  intro v _
  have h1 : HttpCode.fromOptU32 (Option.some v) = HttpCode.fromU32 v := rfl
  rw [h1, toOptU32_some_of_ne _ (fromU32_ne_none v), toU32_fromU32_eq]

/-- C5 witness: the optional round trip at the known value 404 and the
unknown value 999. -/
theorem absence_roundtrip_witness :
    HttpCode.toOptU32 (HttpCode.fromOptU32 (Option.some 404)) = Option.some 404 ∧
    HttpCode.toOptU32 (HttpCode.fromOptU32 (Option.some 999)) = Option.some 999 :=
  ⟨absence_roundtrip.2.2 404 (by decide), absence_roundtrip.2.2 999 (by decide)⟩

/-- C6: signed conversion is periodic with period 2^32 (so every
width reduces to one wrap), a negative value within one wrap converts
as its twos-complement truncation `v + 2^32`, and in particular -1
converts to `Unknown 4294967295`; negative input is never rejected. -/
theorem negative_truncation :
    (∀ v : Int, HttpCode.fromInt (v - 2 ^ 32) = HttpCode.fromInt v) ∧
    (∀ v : Int, -(2 ^ 32) ≤ v → v < 0 →
        HttpCode.fromInt v = HttpCode.fromU32 (v + 2 ^ 32).toNat) ∧
    HttpCode.fromInt (-1) = HttpCode.Unknown 4294967295 := by
  refine ⟨?_, ?_, rfl⟩
  · intro v
    have h : (v - 2 ^ 32) % (2 ^ 32 : Int) = v % 2 ^ 32 := by omega
    unfold HttpCode.fromInt
    rw [h]
  · intro v hlo hhi
    have h : v % (2 ^ 32 : Int) = v + 2 ^ 32 := by omega
    unfold HttpCode.fromInt
    rw [h]

/-- C6 witness: the truncation formula at -1. -/
theorem negative_truncation_witness :
    HttpCode.fromInt (-1) = HttpCode.fromU32 ((-1 + 2 ^ 32 : Int)).toNat :=
  negative_truncation.2.1 (-1) (by decide) (by decide)

/-- C7: `None` converts to the sentinel integer 0, and the default
code is `None`. -/
theorem none_sentinel_and_default :
    HttpCode.toU32 HttpCode.None = 0 ∧ (default : HttpCode) = HttpCode.None :=
  ⟨rfl, rfl⟩

/-- C8: the concrete scenarios from the spec and the test suite. -/
theorem concrete_scenarios :
    HttpCode.fromU32 307 = HttpCode.TemporaryRedirect ∧
    HttpCode.toU32 HttpCode.TemporaryRedirect = 307 ∧
    HttpCode.fromU32 410 = HttpCode.Gone ∧
    HttpCode.fromU32 451 = HttpCode.UnavailableForLegalReasons ∧
    HttpCode.fromU32 999 = HttpCode.Unknown 999 ∧
    HttpCode.fromOptU32 (Option.some 103) = HttpCode.EarlyHints ∧
    HttpCodeClass.fromCode HttpCode.NotFound = HttpCodeClass.ClientError ∧
    HttpCodeClass.fromCode (HttpCode.Unknown 999) = HttpCodeClass.Unknown :=
  ⟨rfl, rfl, rfl, rfl, rfl, rfl, rfl, rfl⟩

/-- C9: the code-to-integer conversion is not injective (`None` and
`Unknown 0` both map to 0), the integer round trip turns `None` into
`Unknown 0`, and for every u32 value in the known table it turns
`Unknown` of that value into the known variant, never back into
`Unknown`; e.g. `Unknown 404` becomes the known variant NotFound. -/
theorem roundtrip_fails_outside_known :
    HttpCode.toU32 HttpCode.None = HttpCode.toU32 (HttpCode.Unknown 0) ∧
    HttpCode.None ≠ HttpCode.Unknown 0 ∧
    HttpCode.fromU32 (HttpCode.toU32 HttpCode.None) = HttpCode.Unknown 0 ∧
    (∀ v ∈ knownCodes,
      HttpCode.fromU32 (HttpCode.toU32 (HttpCode.Unknown v)) = HttpCode.fromU32 v ∧
      (HttpCode.fromU32 v).isKnown = true ∧
      HttpCode.fromU32 (HttpCode.toU32 (HttpCode.Unknown v)) ≠ HttpCode.Unknown v) ∧
    HttpCode.fromU32 (HttpCode.toU32 (HttpCode.Unknown 404)) = HttpCode.NotFound ∧
    HttpCode.NotFound ≠ HttpCode.Unknown 404 := by
  refine ⟨rfl, fun h => HttpCode.noConfusion h, rfl, ?_, rfl,
    fun h => HttpCode.noConfusion h⟩
  intro v hv
  exact ⟨rfl, known_values_isKnown v hv,
    isKnown_ne_unknown _ (known_values_isKnown v hv) v⟩

/-- C9 witness: the round trip through `Unknown 404` lands on the known
variant, not on `Unknown 404`. -/
theorem roundtrip_fails_outside_known_witness :
    HttpCode.fromU32 (HttpCode.toU32 (HttpCode.Unknown 404)) = HttpCode.fromU32 404 ∧
    (HttpCode.fromU32 404).isKnown = true ∧
    HttpCode.fromU32 (HttpCode.toU32 (HttpCode.Unknown 404)) ≠ HttpCode.Unknown 404 :=
  roundtrip_fails_outside_known.2.2.2.1 404 (by decide)

/-- C10: the optional conversion yields `none` exactly on the absence
sentinel; in particular `Unknown 0` yields `some 0` even though the
plain conversion sends both `None` and `Unknown 0` to 0. -/
theorem optional_distinguishes_absence :
    (∀ c : HttpCode, HttpCode.toOptU32 c = Option.none ↔ c = HttpCode.None) ∧
    HttpCode.toOptU32 (HttpCode.Unknown 0) = Option.some 0 ∧
    HttpCode.toU32 HttpCode.None = HttpCode.toU32 (HttpCode.Unknown 0) := by
  refine ⟨fun c => ?_, rfl, rfl⟩
  cases c <;> simp [HttpCode.toOptU32]
